import Mathlib

/-!
Shallow embedding of the AQI / environmental assessment engine of
`src/purple_air.py` (PurpleAir dashboard).  Python floats are modelled by
rationals (`ℚ`); a value that is `None` or NaN in Python — both of which every
classifier sends to its sentinel branch before any arithmetic — is modelled by
`Option.none`.  Python 3's built-in `round` (round-half-to-even) is modelled
exactly by `roundHalfEven`.
-/

namespace PurpleAir

/-- Python 3 `round` to the nearest integer, ties to even (banker's rounding),
as used by `int(round(aqi))` in `epa_aqi_pm25`.  (`Rat.floor` agrees with the
`⌊·⌋` of the `FloorRing` instance, see `rfloor_eq_floor`.) -/
def roundHalfEven (q : ℚ) : ℤ :=
  if q - (q.floor : ℚ) < 1/2 then q.floor
  else if 1/2 < q - (q.floor : ℚ) then q.floor + 1
  else if q.floor % 2 = 0 then q.floor else q.floor + 1

/-- The EPA PM2.5 breakpoint table `bps` of `epa_aqi_pm25`:
`(c_lo, c_hi, i_lo, i_hi)`. -/
def bps : List (ℚ × ℚ × ℤ × ℤ) :=
  [(0, 12, 0, 50),
   (12.1, 35.4, 51, 100),
   (35.5, 55.4, 101, 150),
   (55.5, 150.4, 151, 200),
   (150.5, 250.4, 201, 300),
   (250.5, 350.4, 301, 400),
   (350.5, 500.4, 401, 500)]

/-- The `for c_lo, c_hi, i_lo, i_hi in bps` loop of `epa_aqi_pm25`:
first band containing `x` wins, interpolate and round; no band → `None`. -/
def aqiScan (x : ℚ) : List (ℚ × ℚ × ℤ × ℤ) → Option ℤ
  | [] => none
  | (c_lo, c_hi, i_lo, i_hi) :: rest =>
    if c_lo ≤ x ∧ x ≤ c_hi then
      some (roundHalfEven (((i_hi - i_lo : ℤ) : ℚ) / (c_hi - c_lo) * (x - c_lo) + (i_lo : ℚ)))
    else aqiScan x rest

/-- `epa_aqi_pm25` (src/purple_air.py lines 68–86): None/NaN → None, clamp to
[0.0, 500.4], then scan the breakpoint table. -/
def epa_aqi_pm25 (pm25 : Option ℚ) : Option ℤ :=
  match pm25 with
  | none => none
  | some pm25 => aqiScan (min (max pm25 0) 500.4) bps

/-- `assess_aqi` (lines 116–130): `(label, emoji, guidance, css_class)`. -/
def assess_aqi (aqi : Option ℤ) : String × String × String × String :=
  match aqi with
  | none => ("Unknown", "⚪", "No AQI available.", "")
  | some aqi =>
    if 0 ≤ aqi ∧ aqi ≤ 50 then
      ("Good", "🟢", "Air quality is satisfactory. Outdoor activities are safe.", "good")
    else if 51 ≤ aqi ∧ aqi ≤ 100 then
      ("Moderate", "🟡", "Acceptable; unusually sensitive people should reduce prolonged exertion.", "moderate")
    else if 101 ≤ aqi ∧ aqi ≤ 150 then
      ("Unhealthy for Sensitive Groups", "🟠", "Sensitive groups should reduce prolonged or heavy exertion.", "usg")
    else if 151 ≤ aqi ∧ aqi ≤ 200 then
      ("Unhealthy", "🔴", "Everyone may experience health effects; limit prolonged outdoor exertion.", "unhealthy")
    else if 201 ≤ aqi ∧ aqi ≤ 300 then
      ("Very Unhealthy", "🟣", "Health alert: avoid prolonged or heavy exertion outdoors.", "veryunhealthy")
    else
      ("Hazardous", "🟤", "Health warnings of emergency conditions: avoid all outdoor exertion.", "hazardous")

/-- `assess_pm25` (lines 133–148): `(label, note, css_class)`. -/
def assess_pm25 (pm : Option ℚ) : String × String × String :=
  match pm with
  | none => ("—", "No PM2.5 data.", "")
  | some x =>
    if 0 ≤ x ∧ x ≤ 12 then
      ("Good", "Within EPA 24h guideline (0–12 µg/m³).", "good")
    else if 12.1 ≤ x ∧ x ≤ 35.4 then
      ("Moderate", "Consider caution for unusually sensitive people.", "moderate")
    else if 35.5 ≤ x ∧ x ≤ 55.4 then
      ("USG", "Sensitive groups should reduce prolonged outdoor exertion.", "usg")
    else if 55.5 ≤ x ∧ x ≤ 150.4 then
      ("Unhealthy", "Everyone may experience health effects—limit outdoor exertion.", "unhealthy")
    else if 150.5 ≤ x ∧ x ≤ 250.4 then
      ("Very Unhealthy", "Avoid outdoor activities; use masks/air purifiers if possible.", "veryunhealthy")
    else
      ("Hazardous", "Serious risk—stay indoors with clean air if available.", "hazardous")

/-- Python `f"{v:.1f}"` on a rational: one decimal place, round half-to-even. -/
def fmt1 (q : ℚ) : String :=
  let n := roundHalfEven (q * 10)
  let s := toString (n.natAbs / 10) ++ "." ++ toString (n.natAbs % 10)
  if n < 0 then "-" ++ s else s

/-- Python `f"{h:.0f}"` on a rational: nearest integer, round half-to-even. -/
def fmt0 (q : ℚ) : String := toString (roundHalfEven q)

/-- The local `v` of `assess_temp` in the Fahrenheit branch (line 156):
keep values in [40, 120], otherwise treat as Celsius and convert. -/
def detectF (value : ℚ) : ℚ :=
  if 40 ≤ value ∧ value ≤ 120 then value else value * 9 / 5 + 32

/-- The local `v` of `assess_temp` in the Celsius branch (line 165):
keep values in [-20, 50], otherwise treat as Fahrenheit and convert. -/
def detectC (value : ℚ) : ℚ :=
  if -20 ≤ value ∧ value ≤ 50 then value else (value - 32) * 5 / 9

/-- `assess_temp` (lines 151–172): `(display_value, guidance)`. -/
def assess_temp (value : Option ℚ) (to_unit : String) : String × String :=
  match value with
  | none => ("—", "No temperature data.")
  | some value =>
    if to_unit = "Fahrenheit" then
      let v := detectF value
      if 68 ≤ v ∧ v ≤ 77 then (fmt1 v ++ " °F", "Comfort range for many indoors conditions.")
      else if 86 < v then (fmt1 v ++ " °F", "High heat: watch for heat stress; hydrate and rest.")
      else if v < 50 then (fmt1 v ++ " °F", "Cool: consider layering for warmth.")
      else (fmt1 v ++ " °F", "—")
    else
      let v := detectC value
      if 20 ≤ v ∧ v ≤ 25 then (fmt1 v ++ " °C", "Comfort range for many indoors conditions.")
      else if 30 < v then (fmt1 v ++ " °C", "High heat: watch for heat stress; hydrate and rest.")
      else if v < 10 then (fmt1 v ++ " °C", "Cool: consider layering for warmth.")
      else (fmt1 v ++ " °C", "—")

/-- `assess_humidity` (lines 175–188): `(display, guidance)`. -/
def assess_humidity (h : Option ℚ) : String × String :=
  match h with
  | none => ("—", "No humidity data.")
  | some h =>
    if 40 ≤ h ∧ h ≤ 60 then (fmt0 h ++ "%", "Comfort range (40–60%).")
    else if 30 ≤ h ∧ h < 40 then (fmt0 h ++ "%", "Slightly dry: consider humidifier (target ≥40%).")
    else if 60 < h ∧ h ≤ 70 then (fmt0 h ++ "%", "Slightly humid: increase ventilation; target ≤60%.")
    else if h < 30 then (fmt0 h ++ "%", "Low humidity: dryness and irritation possible.")
    else if 70 < h then (fmt0 h ++ "%", "High humidity: mold and discomfort possible.")
    else (fmt0 h ++ "%", "—")

/-- `assess_pressure` (lines 191–198): `(display, guidance)`. -/
def assess_pressure (p : Option ℚ) : String × String :=
  match p with
  | none => ("—", "No pressure data.")
  | some p =>
    if p < 1000 then (fmt1 p ++ " hPa", "Low pressure: unsettled weather likely.")
    else if 1025 < p then (fmt1 p ++ " hPa", "High pressure: settled/fair weather.")
    else (fmt1 p ++ " hPa", "Near average (~1013 hPa).")

/-! ### Helper lemmas about `roundHalfEven` -/

theorem rfloor_eq_floor (q : ℚ) : q.floor = ⌊q⌋ :=
  (Rat.floor_def' q).trans Rat.floor_def.symm

theorem roundHalfEven_eq_low (q : ℚ) (f : ℤ) (h1 : (f : ℚ) ≤ q)
    (h2 : q < (f : ℚ) + 1/2) : roundHalfEven q = f := by
  have hf : q.floor = f := by
    rw [rfloor_eq_floor]
    exact Int.floor_eq_iff.mpr ⟨h1, by linarith⟩
  have hr : q - (f : ℚ) < 1/2 := by linarith
  simp only [roundHalfEven, hf, if_pos hr]

theorem roundHalfEven_eq_high (q : ℚ) (f : ℤ) (h1 : (f : ℚ) + 1/2 < q)
    (h2 : q < (f : ℚ) + 1) : roundHalfEven q = f + 1 := by
  have hf : q.floor = f := by
    rw [rfloor_eq_floor]
    exact Int.floor_eq_iff.mpr ⟨by linarith, by linarith⟩
  have hr1 : ¬(q - (f : ℚ) < 1/2) := by push_neg; linarith
  have hr2 : 1/2 < q - (f : ℚ) := by linarith
  simp only [roundHalfEven, hf, if_neg hr1, if_pos hr2]

theorem roundHalfEven_floor_le (q : ℚ) : q.floor ≤ roundHalfEven q := by
  unfold roundHalfEven
  split_ifs <;> omega

theorem roundHalfEven_le_floor_add_one (q : ℚ) : roundHalfEven q ≤ q.floor + 1 := by
  unfold roundHalfEven
  split_ifs <;> omega

theorem roundHalfEven_mono {q1 q2 : ℚ} (h : q1 ≤ q2) :
    roundHalfEven q1 ≤ roundHalfEven q2 := by
  have hm : q1.floor ≤ q2.floor := by
    rw [rfloor_eq_floor, rfloor_eq_floor]; exact Int.floor_mono h
  rcases eq_or_lt_of_le hm with heq | hlt
  · have hfl1 : (q1.floor : ℚ) ≤ q1 := by rw [rfloor_eq_floor]; exact Int.floor_le q1
    have hfl2 : (q2.floor : ℚ) ≤ q2 := by rw [rfloor_eq_floor]; exact Int.floor_le q2
    unfold roundHalfEven
    rw [← heq]
    split_ifs <;> first | omega | (exfalso; linarith)
  · have h1 := roundHalfEven_le_floor_add_one q1
    have h2 := roundHalfEven_floor_le q2
    omega

theorem roundHalfEven_bounds (q : ℚ) (lo hi : ℤ) (h1 : (lo : ℚ) ≤ q)
    (h2 : q ≤ (hi : ℚ)) : lo ≤ roundHalfEven q ∧ roundHalfEven q ≤ hi := by
  have hflo : lo ≤ q.floor := by
    rw [rfloor_eq_floor]; exact Int.le_floor.mpr h1
  have hfhi : q.floor ≤ hi := by
    rw [rfloor_eq_floor]
    calc ⌊q⌋ ≤ ⌊(hi : ℚ)⌋ := Int.floor_mono h2
    _ = hi := Int.floor_intCast hi
  refine ⟨le_trans hflo (roundHalfEven_floor_le q), ?_⟩
  rcases lt_or_eq_of_le hfhi with hlt | heq
  · have := roundHalfEven_le_floor_add_one q
    omega
  · have hq : q = (hi : ℚ) := by
      have : (hi : ℚ) ≤ q := by
        rw [← heq, rfloor_eq_floor]; exact Int.floor_le q
      linarith
    rw [hq, roundHalfEven_eq_low _ hi le_rfl (by linarith)]

theorem roundHalfEven_range (q : ℚ) (lo hi : ℤ) (h1 : (lo : ℚ) ≤ q)
    (h2 : q ≤ (hi : ℚ)) (h3 : 0 ≤ lo) (h4 : hi ≤ 500) :
    0 ≤ roundHalfEven q ∧ roundHalfEven q ≤ 500 := by
  obtain ⟨l, r⟩ := roundHalfEven_bounds q lo hi h1 h2
  omega

/-! ### Concrete evaluations used by several witnesses -/

theorem epa_eval_zero : epa_aqi_pm25 (some 0) = some 0 := by
  have hc : min (max (0:ℚ) 0) 500.4 = 0 := by
    rw [max_self]; exact min_eq_left (by norm_num)
  simp only [epa_aqi_pm25, hc, aqiScan, bps]
  rw [if_pos (by norm_num), Option.some.injEq]
  exact roundHalfEven_eq_low _ 0 (by push_cast; norm_num) (by push_cast; norm_num)

theorem epa_eval_twelve : epa_aqi_pm25 (some 12) = some 50 := by
  have hc : min (max (12:ℚ) 0) 500.4 = 12 := by
    rw [max_eq_left (by norm_num), min_eq_left (by norm_num)]
  simp only [epa_aqi_pm25, hc, aqiScan, bps]
  rw [if_pos (by norm_num), Option.some.injEq]
  exact roundHalfEven_eq_low _ 50 (by push_cast; norm_num) (by push_cast; norm_num)

theorem epa_eval_forty : epa_aqi_pm25 (some 40) = some 112 := by
  have hc : min (max (40:ℚ) 0) 500.4 = 40 := by
    rw [max_eq_left (by norm_num), min_eq_left (by norm_num)]
  simp only [epa_aqi_pm25, hc, aqiScan, bps]
  rw [if_neg (by rintro ⟨u, v⟩; norm_num at v), if_neg (by rintro ⟨u, v⟩; norm_num at v),
    if_pos (by norm_num), Option.some.injEq]
  exact roundHalfEven_eq_low _ 112 (by push_cast; norm_num) (by push_cast; norm_num)

theorem fmt1_seventy_two : fmt1 (72:ℚ) = "72.0" := by
  have h : roundHalfEven ((72:ℚ) * 10) = 720 :=
    roundHalfEven_eq_low _ 720 (by norm_num) (by norm_num)
  simp only [fmt1, h]
  rfl

/-! ### Claims -/

/-- C1 (counterexample): on input 40.0 the interpolation in the band
[35.5, 55.4] → [101, 150] gives 49/19.9·4.5 + 101 = 112.08…, which rounds to
112, not 111: `epa_aqi_pm25 (some 40)` is not `some 111`. -/
theorem toAqi_forty_ne_111 : epa_aqi_pm25 (some 40) ≠ some 111 := by
  rw [epa_eval_forty]
  simp

/-- C1 (amended): for the input PM2.5 concentration 40.0, `epa_aqi_pm25`
computes linear interpolation in the band [35.5, 55.4] → [101, 150], rounded to
the nearest integer, yielding 112, and `assess_aqi` of that result is
Unhealthy for Sensitive Groups. -/
theorem toAqi_forty_categorize_usg :
    epa_aqi_pm25 (some 40) = some 112 ∧
    assess_aqi (some 112) = ("Unhealthy for Sensitive Groups", "🟠",
      "Sensitive groups should reduce prolonged or heavy exertion.", "usg") := by
  refine ⟨epa_eval_forty, ?_⟩
  simp only [assess_aqi]
  rw [if_neg (by omega), if_neg (by omega), if_pos (by omega)]

/-- C2 (counterexample): the gap value 12.05 matches no breakpoint band, so
`epa_aqi_pm25` falls through its loop and returns `none` (absent), not a
defined integer taken from the lower band. -/
theorem toAqi_gap_12_05 : epa_aqi_pm25 (some 12.05) = none := by
  simp only [epa_aqi_pm25]
  rw [max_eq_left (by norm_num), min_eq_left (by norm_num)]
  simp only [aqiScan, bps]
  rw [if_neg (by rintro ⟨u, v⟩; norm_num at v), if_neg (by rintro ⟨u, v⟩; norm_num at u),
    if_neg (by rintro ⟨u, v⟩; norm_num at u), if_neg (by rintro ⟨u, v⟩; norm_num at u),
    if_neg (by rintro ⟨u, v⟩; norm_num at u), if_neg (by rintro ⟨u, v⟩; norm_num at u),
    if_neg (by rintro ⟨u, v⟩; norm_num at u)]

/-- C2 (amended): every concentration lying strictly inside a gap between two
adjacent breakpoint bands matches no band of `epa_aqi_pm25`, which therefore
returns `none` (absent) rather than a value from the lower band. -/
theorem toAqi_gap_none (p : ℚ)
    (h : 12 < p ∧ p < 12.1 ∨ 35.4 < p ∧ p < 35.5 ∨ 55.4 < p ∧ p < 55.5 ∨
      150.4 < p ∧ p < 150.5 ∨ 250.4 < p ∧ p < 250.5 ∨ 350.4 < p ∧ p < 350.5) :
    epa_aqi_pm25 (some p) = none := by
  rcases h with ⟨h1, h2⟩ | ⟨h1, h2⟩ | ⟨h1, h2⟩ | ⟨h1, h2⟩ | ⟨h1, h2⟩ | ⟨h1, h2⟩ <;>
    (simp only [epa_aqi_pm25]
     rw [max_eq_left (by linarith), min_eq_left (by linarith)]
     simp only [aqiScan, bps]
     rw [if_neg (by rintro ⟨u, v⟩; linarith), if_neg (by rintro ⟨u, v⟩; linarith),
       if_neg (by rintro ⟨u, v⟩; linarith), if_neg (by rintro ⟨u, v⟩; linarith),
       if_neg (by rintro ⟨u, v⟩; linarith), if_neg (by rintro ⟨u, v⟩; linarith),
       if_neg (by rintro ⟨u, v⟩; linarith)])

/-- C2 (witness): the gap value 35.45 instantiates `toAqi_gap_none`. -/
theorem toAqi_gap_none_witness : epa_aqi_pm25 (some 35.45) = none :=
  toAqi_gap_none 35.45 (Or.inr (Or.inl ⟨by norm_num, by norm_num⟩))

set_option maxHeartbeats 3000000 in
/-- C3: `epa_aqi_pm25` is monotonically non-decreasing on [0, 500.4]: whenever
`0 ≤ x ≤ y ≤ 500.4` and both inputs produce a defined AQI, the AQI of `x` is
at most the AQI of `y`. -/
theorem toAqi_mono (x y : ℚ) (a b : ℤ) (hx : 0 ≤ x) (hxy : x ≤ y)
    (hy : y ≤ 500.4) (ha : epa_aqi_pm25 (some x) = some a)
    (hb : epa_aqi_pm25 (some y) = some b) : a ≤ b := by
  simp only [epa_aqi_pm25] at ha hb
  rw [max_eq_left hx, min_eq_left (le_trans hxy hy)] at ha
  rw [max_eq_left (le_trans hx hxy), min_eq_left hy] at hb
  simp only [aqiScan, bps] at ha hb
  split_ifs at ha hb
  all_goals
    rw [Option.some.injEq] at ha hb
    subst ha
    subst hb
    apply roundHalfEven_mono
    casesm* _ ∧ _
    push_cast
    linarith

/-- C3 (witness): `toAqi_mono` applied to the pair 0 ≤ 12 with the computed
values `toAqi 0 = 0` and `toAqi 12 = 50`. -/
theorem toAqi_mono_witness :
    epa_aqi_pm25 (some 0) = some 0 ∧ epa_aqi_pm25 (some 12) = some 50 ∧ (0:ℤ) ≤ 50 :=
  ⟨epa_eval_zero, epa_eval_twelve,
    toAqi_mono 0 12 0 50 le_rfl (by norm_num) (by norm_num) epa_eval_zero epa_eval_twelve⟩

/-- C4: `assess_aqi` maps the integer AQI bands exactly as specified —
[0,50] Good, [51,100] Moderate, [101,150] USG, [151,200] Unhealthy,
[201,300] Very Unhealthy — never rejects values above 300 (all are Hazardous,
including above 500), and maps an absent input to the Unknown sentinel with
guidance "No AQI available.". -/
theorem categorize_bands :
    assess_aqi (some 0) = ("Good", "🟢",
      "Air quality is satisfactory. Outdoor activities are safe.", "good") ∧
    assess_aqi (some 50) = ("Good", "🟢",
      "Air quality is satisfactory. Outdoor activities are safe.", "good") ∧
    assess_aqi (some 51) = ("Moderate", "🟡",
      "Acceptable; unusually sensitive people should reduce prolonged exertion.", "moderate") ∧
    assess_aqi (some 301) = ("Hazardous", "🟤",
      "Health warnings of emergency conditions: avoid all outdoor exertion.", "hazardous") ∧
    (∀ n : ℤ, 300 < n → assess_aqi (some n) = ("Hazardous", "🟤",
      "Health warnings of emergency conditions: avoid all outdoor exertion.", "hazardous")) ∧
    assess_aqi none = ("Unknown", "⚪", "No AQI available.", "") ∧
    (∀ n : ℤ, 0 ≤ n ∧ n ≤ 50 → assess_aqi (some n) = ("Good", "🟢",
      "Air quality is satisfactory. Outdoor activities are safe.", "good")) ∧
    (∀ n : ℤ, 51 ≤ n ∧ n ≤ 100 → assess_aqi (some n) = ("Moderate", "🟡",
      "Acceptable; unusually sensitive people should reduce prolonged exertion.", "moderate")) ∧
    (∀ n : ℤ, 101 ≤ n ∧ n ≤ 150 → assess_aqi (some n) = ("Unhealthy for Sensitive Groups", "🟠",
      "Sensitive groups should reduce prolonged or heavy exertion.", "usg")) ∧
    (∀ n : ℤ, 151 ≤ n ∧ n ≤ 200 → assess_aqi (some n) = ("Unhealthy", "🔴",
      "Everyone may experience health effects; limit prolonged outdoor exertion.", "unhealthy")) ∧
    (∀ n : ℤ, 201 ≤ n ∧ n ≤ 300 → assess_aqi (some n) = ("Very Unhealthy", "🟣",
      "Health alert: avoid prolonged or heavy exertion outdoors.", "veryunhealthy")) := by
  refine ⟨?_, ?_, ?_, ?_, ?_, rfl, ?_, ?_, ?_, ?_, ?_⟩ <;>
    first
      | (simp only [assess_aqi]
         split_ifs <;> first | rfl | (exfalso; omega))
      | (intro n hn
         simp only [assess_aqi]
         split_ifs <;> first | rfl | (exfalso; omega))

/-- C4 (witness): `categorize_bands` instantiated at the concrete points 501
(Hazardous above 500) and 75 (Moderate band). -/
theorem categorize_bands_witness :
    assess_aqi (some 501) = ("Hazardous", "🟤",
      "Health warnings of emergency conditions: avoid all outdoor exertion.", "hazardous") ∧
    assess_aqi (some 75) = ("Moderate", "🟡",
      "Acceptable; unusually sensitive people should reduce prolonged exertion.", "moderate") :=
  ⟨categorize_bands.2.2.2.2.1 501 (by norm_num),
   categorize_bands.2.2.2.2.2.2.2.1 75 (by norm_num)⟩

/-- C5: every classifier of the engine is total and produces a defined,
display-ready result on every input of its (embedded) domain: `epa_aqi_pm25`
yields `none` or an integer AQI in [0, 500], and each assessment function
yields one of its finitely many hard-coded results (absent/NaN inputs are the
`none` case and yield the sentinel). -/
theorem classifiers_total :
    (∀ p : ℚ, epa_aqi_pm25 (some p) = none ∨
      ∃ n : ℤ, epa_aqi_pm25 (some p) = some n ∧ 0 ≤ n ∧ n ≤ 500) ∧
    (∀ a : Option ℤ, assess_aqi a ∈
      [("Unknown", "⚪", "No AQI available.", ""),
       ("Good", "🟢", "Air quality is satisfactory. Outdoor activities are safe.", "good"),
       ("Moderate", "🟡", "Acceptable; unusually sensitive people should reduce prolonged exertion.", "moderate"),
       ("Unhealthy for Sensitive Groups", "🟠", "Sensitive groups should reduce prolonged or heavy exertion.", "usg"),
       ("Unhealthy", "🔴", "Everyone may experience health effects; limit prolonged outdoor exertion.", "unhealthy"),
       ("Very Unhealthy", "🟣", "Health alert: avoid prolonged or heavy exertion outdoors.", "veryunhealthy"),
       ("Hazardous", "🟤", "Health warnings of emergency conditions: avoid all outdoor exertion.", "hazardous")]) ∧
    (∀ p : Option ℚ, assess_pm25 p ∈
      [("—", "No PM2.5 data.", ""),
       ("Good", "Within EPA 24h guideline (0–12 µg/m³).", "good"),
       ("Moderate", "Consider caution for unusually sensitive people.", "moderate"),
       ("USG", "Sensitive groups should reduce prolonged outdoor exertion.", "usg"),
       ("Unhealthy", "Everyone may experience health effects—limit outdoor exertion.", "unhealthy"),
       ("Very Unhealthy", "Avoid outdoor activities; use masks/air purifiers if possible.", "veryunhealthy"),
       ("Hazardous", "Serious risk—stay indoors with clean air if available.", "hazardous")]) ∧
    (∀ v : Option ℚ, ∀ u : String, (assess_temp v u).2 ∈
      ["No temperature data.", "Comfort range for many indoors conditions.",
       "High heat: watch for heat stress; hydrate and rest.",
       "Cool: consider layering for warmth.", "—"]) ∧
    (∀ h : Option ℚ, (assess_humidity h).2 ∈
      ["No humidity data.", "Comfort range (40–60%).",
       "Slightly dry: consider humidifier (target ≥40%).",
       "Slightly humid: increase ventilation; target ≤60%.",
       "Low humidity: dryness and irritation possible.",
       "High humidity: mold and discomfort possible.", "—"]) ∧
    (∀ p : Option ℚ, (assess_pressure p).2 ∈
      ["No pressure data.", "Low pressure: unsettled weather likely.",
       "High pressure: settled/fair weather.", "Near average (~1013 hPa)."]) := by
  refine ⟨?_, ?_, ?_, ?_, ?_, ?_⟩
  · intro p
    simp only [epa_aqi_pm25, aqiScan, bps]
    split_ifs with b1 b2 b3 b4 b5 b6 b7
    · obtain ⟨u, v⟩ := b1
      exact Or.inr ⟨_, rfl,
        roundHalfEven_range _ 0 50 (by push_cast; linarith) (by push_cast; linarith)
          (by norm_num) (by norm_num)⟩
    · obtain ⟨u, v⟩ := b2
      exact Or.inr ⟨_, rfl,
        roundHalfEven_range _ 51 100 (by push_cast; linarith) (by push_cast; linarith)
          (by norm_num) (by norm_num)⟩
    · obtain ⟨u, v⟩ := b3
      exact Or.inr ⟨_, rfl,
        roundHalfEven_range _ 101 150 (by push_cast; linarith) (by push_cast; linarith)
          (by norm_num) (by norm_num)⟩
    · obtain ⟨u, v⟩ := b4
      exact Or.inr ⟨_, rfl,
        roundHalfEven_range _ 151 200 (by push_cast; linarith) (by push_cast; linarith)
          (by norm_num) (by norm_num)⟩
    · obtain ⟨u, v⟩ := b5
      exact Or.inr ⟨_, rfl,
        roundHalfEven_range _ 201 300 (by push_cast; linarith) (by push_cast; linarith)
          (by norm_num) (by norm_num)⟩
    · obtain ⟨u, v⟩ := b6
      exact Or.inr ⟨_, rfl,
        roundHalfEven_range _ 301 400 (by push_cast; linarith) (by push_cast; linarith)
          (by norm_num) (by norm_num)⟩
    · obtain ⟨u, v⟩ := b7
      exact Or.inr ⟨_, rfl,
        roundHalfEven_range _ 401 500 (by push_cast; linarith) (by push_cast; linarith)
          (by norm_num) (by norm_num)⟩
    · exact Or.inl rfl
  · intro a
    match a with
    | none => simp [assess_aqi]
    | some n =>
      simp only [assess_aqi]
      split_ifs <;> simp
  · intro p
    match p with
    | none => simp [assess_pm25]
    | some x =>
      simp only [assess_pm25]
      split_ifs <;> simp
  · intro v u
    match v with
    | none => simp [assess_temp]
    | some x =>
      simp only [assess_temp]
      split_ifs <;> simp
  · intro h
    match h with
    | none => simp [assess_humidity]
    | some x =>
      simp only [assess_humidity]
      split_ifs <;> simp
  · intro p
    match p with
    | none => simp [assess_pressure]
    | some x =>
      simp only [assess_pressure]
      split_ifs <;> simp

/-- C6: `epa_aqi_pm25` clamps its input to [0.0, 500.4] before the breakpoint
lookup: every input at or below 0 gives the same result as input 0 (in
particular −5), and every input at or above 500.4 gives the same result as
input 500.4 (in particular 600). -/
theorem toAqi_clamp :
    (∀ p : ℚ, p ≤ 0 → epa_aqi_pm25 (some p) = epa_aqi_pm25 (some 0)) ∧
    (∀ p : ℚ, 500.4 ≤ p → epa_aqi_pm25 (some p) = epa_aqi_pm25 (some 500.4)) ∧
    epa_aqi_pm25 (some (-5)) = epa_aqi_pm25 (some 0) ∧
    epa_aqi_pm25 (some 600) = epa_aqi_pm25 (some 500.4) := by
  have hlo : ∀ p : ℚ, p ≤ 0 → epa_aqi_pm25 (some p) = epa_aqi_pm25 (some 0) := by
    intro p hp
    simp only [epa_aqi_pm25]
    rw [max_eq_right hp, max_self]
  have hhi : ∀ p : ℚ, 500.4 ≤ p → epa_aqi_pm25 (some p) = epa_aqi_pm25 (some 500.4) := by
    intro p hp
    simp only [epa_aqi_pm25]
    rw [max_eq_left (le_trans (by norm_num) hp), max_eq_left (by norm_num),
      min_eq_right hp, min_self]
  exact ⟨hlo, hhi, hlo (-5) (by norm_num), hhi 600 (by norm_num)⟩

/-- C6 (witness): `toAqi_clamp` instantiated at −7 and 999. -/
theorem toAqi_clamp_witness :
    epa_aqi_pm25 (some (-7)) = epa_aqi_pm25 (some 0) ∧
    epa_aqi_pm25 (some 999) = epa_aqi_pm25 (some 500.4) :=
  ⟨toAqi_clamp.1 (-7) (by norm_num), toAqi_clamp.2.1 999 (by norm_num)⟩

/-- C7: `assess_pm25` classifies the raw concentration with exact boundary
behaviour — 12.0 is Good, 12.1 is Moderate — and maps an absent (or NaN)
input to the sentinel ("—", "No PM2.5 data.", no class). -/
theorem categorizePm25_boundaries :
    assess_pm25 (some 12) = ("Good", "Within EPA 24h guideline (0–12 µg/m³).", "good") ∧
    assess_pm25 (some 12.1) = ("Moderate", "Consider caution for unusually sensitive people.", "moderate") ∧
    assess_pm25 none = ("—", "No PM2.5 data.", "") := by
  refine ⟨?_, ?_, rfl⟩
  · simp only [assess_pm25]
    rw [if_pos (by norm_num)]
  · simp only [assess_pm25]
    rw [if_neg (by rintro ⟨u, v⟩; norm_num at v), if_pos (by norm_num)]

/-- C8: `assess_temp` applies the unit auto-detection heuristic — Fahrenheit
target keeps values in [40, 120] and converts anything else via v·9/5 + 32,
Celsius target keeps values in [−20, 50] and applies the inverse conversion —
and a detected value in the comfort band yields the one-decimal display with
the comfort guidance, in particular 72 °F. -/
theorem classifyTemperature_spec :
    (∀ v : ℚ, (40 ≤ v ∧ v ≤ 120 → detectF v = v) ∧
      (¬(40 ≤ v ∧ v ≤ 120) → detectF v = v * 9 / 5 + 32)) ∧
    (∀ v : ℚ, (-20 ≤ v ∧ v ≤ 50 → detectC v = v) ∧
      (¬(-20 ≤ v ∧ v ≤ 50) → detectC v = (v - 32) * 5 / 9)) ∧
    (∀ v : ℚ, 68 ≤ detectF v ∧ detectF v ≤ 77 →
      assess_temp (some v) "Fahrenheit" =
        (fmt1 (detectF v) ++ " °F", "Comfort range for many indoors conditions.")) ∧
    (∀ v : ℚ, 20 ≤ detectC v ∧ detectC v ≤ 25 →
      assess_temp (some v) "Celsius" =
        (fmt1 (detectC v) ++ " °C", "Comfort range for many indoors conditions.")) ∧
    assess_temp (some 72) "Fahrenheit" = ("72.0 °F", "Comfort range for many indoors conditions.") := by
  refine ⟨?_, ?_, ?_, ?_, ?_⟩
  · intro v
    constructor
    · intro hv; unfold detectF; rw [if_pos hv]
    · intro hv; unfold detectF; rw [if_neg hv]
  · intro v
    constructor
    · intro hv; unfold detectC; rw [if_pos hv]
    · intro hv; unfold detectC; rw [if_neg hv]
  · intro v hv
    simp only [assess_temp]
    rw [if_pos trivial, if_pos hv]
  · intro v hv
    simp only [assess_temp]
    rw [if_neg (by decide), if_pos hv]
  · have hd : detectF (72:ℚ) = 72 := if_pos (by norm_num)
    simp only [assess_temp, hd, fmt1_seventy_two]
    rw [if_pos trivial, if_pos (by norm_num)]
    rfl

/-- C8 (witness): `classifyTemperature_spec` instantiated — 72 is kept as
Fahrenheit, 100 is converted for the Celsius target, and the concrete 72 °F
comfort result. -/
theorem classifyTemperature_spec_witness :
    detectF 72 = 72 ∧ detectC 100 = (100 - 32) * 5 / 9 ∧
    assess_temp (some 72) "Fahrenheit" = ("72.0 °F", "Comfort range for many indoors conditions.") :=
  ⟨(classifyTemperature_spec.1 72).1 (by norm_num),
   (classifyTemperature_spec.2.1 100).2 (by norm_num),
   classifyTemperature_spec.2.2.2.2⟩

/-- C9: the categorizers fall through to Hazardous for every non-matching
numeric input: `assess_aqi` is Hazardous for every integer outside [0, 300]
(including negatives), and `assess_pm25` is Hazardous for every negative
concentration and every concentration strictly inside a gap between adjacent
bands (such as 12.05), not only above 250.4. -/
theorem fallthrough_hazardous :
    (∀ n : ℤ, n < 0 ∨ 300 < n → assess_aqi (some n) = ("Hazardous", "🟤",
      "Health warnings of emergency conditions: avoid all outdoor exertion.", "hazardous")) ∧
    (∀ p : ℚ, (p < 0 ∨ 12 < p ∧ p < 12.1 ∨ 35.4 < p ∧ p < 35.5 ∨ 55.4 < p ∧ p < 55.5 ∨
        150.4 < p ∧ p < 150.5 ∨ 250.4 < p ∧ p < 250.5) →
      assess_pm25 (some p) = ("Hazardous",
        "Serious risk—stay indoors with clean air if available.", "hazardous")) := by
  constructor
  · intro n hn
    simp only [assess_aqi]
    split_ifs <;> first | rfl | (exfalso; omega)
  · intro p hp
    simp only [assess_pm25]
    split_ifs <;>
      first
        | rfl
        | (exfalso
           rcases hp with h | ⟨h1, h2⟩ | ⟨h1, h2⟩ | ⟨h1, h2⟩ | ⟨h1, h2⟩ | ⟨h1, h2⟩ <;>
             casesm* _ ∧ _ <;> linarith)

/-- C9 (witness): `fallthrough_hazardous` instantiated at AQI −5 and at the
gap concentration 12.05. -/
theorem fallthrough_hazardous_witness :
    assess_aqi (some (-5)) = ("Hazardous", "🟤",
      "Health warnings of emergency conditions: avoid all outdoor exertion.", "hazardous") ∧
    assess_pm25 (some 12.05) = ("Hazardous",
      "Serious risk—stay indoors with clean air if available.", "hazardous") :=
  ⟨fallthrough_hazardous.1 (-5) (Or.inl (by norm_num)),
   fallthrough_hazardous.2 12.05 (Or.inr (Or.inl ⟨by norm_num, by norm_num⟩))⟩

/-- C10: the five humidity guidance bands of `assess_humidity` are exhaustive
over every (finite, non-NaN) humidity value, so the final "—" fallback branch
is unreachable: the guidance is always one of the five band texts. -/
theorem humidity_bands_exhaustive (h : ℚ) :
    (assess_humidity (some h)).2 ∈
      ["Comfort range (40–60%).",
       "Slightly dry: consider humidifier (target ≥40%).",
       "Slightly humid: increase ventilation; target ≤60%.",
       "Low humidity: dryness and irritation possible.",
       "High humidity: mold and discomfort possible."] := by
  simp only [assess_humidity]
  split_ifs with b1 b2 b3 b4 b5
  · simp
  · simp
  · simp
  · simp
  · simp
  · exfalso
    push_neg at b1 b2 b3 b4 b5
    have h30 : 30 ≤ h := b4
    have h40 : 40 ≤ h := b2 h30
    have h60 : 60 < h := b1 h40
    have h70 : 70 < h := b3 h60
    linarith

/-- C10 (witness): `humidity_bands_exhaustive` instantiated at 50 %. -/
theorem humidity_bands_exhaustive_witness :
    (assess_humidity (some 50)).2 ∈
      ["Comfort range (40–60%).",
       "Slightly dry: consider humidifier (target ≥40%).",
       "Slightly humid: increase ventilation; target ≤60%.",
       "Low humidity: dryness and irritation possible.",
       "High humidity: mold and discomfort possible."] :=
  humidity_bands_exhaustive 50

end PurpleAir
